import Mathlib

/-!
Verification of the open-cis vital-signs mapping layer.

Shallow embedding of src/api/src/observations/service.py,
src/api/src/observations/schemas.py and src/api/src/ehrbase/queries.py.
Library functions of the Python runtime (datetime rendering and parsing,
the relational patient lookup and the EHRBase network client) are taken
as explicit function parameters; everything else is translated directly
from the source.
-/

set_option maxRecDepth 65536

namespace OpenCIS

/-- A JSON scalar as it appears in an AQL query-result row: null, an
integer, or a string. -/
inductive Value where
  | vnull
  | vint (n : Int)
  | vstr (s : String)
deriving DecidableEq, Repr

/-- Python truthiness of a row scalar: None, 0 and the empty string are
falsy; every other value here is truthy. -/
def Value.truthy : Value → Bool
  | .vnull => false
  | .vint n => n != 0
  | .vstr s => s != ""

/-- A Python datetime: a wall-clock instant in abstract ticks plus an
optional timezone offset (none means a naive datetime). -/
structure PyDateTime where
  wall : Int
  tz : Option Int
deriving DecidableEq, Repr

/-- The UTC instant of a datetime, reading a missing offset as zero.
This is the value Python compares after the naive value is rewritten
with replace(tzinfo=UTC). -/
def normalizedInstant (d : PyDateTime) : Int := d.wall - (d.tz.getD 0)

/-- The VitalSignsCreate record shape of schemas.py (before or after
validation; the validating constructor is mkVitalSignsCreate below). -/
structure VitalSignsCreate where
  patient_id : String
  encounter_id : Option String
  recorded_at : PyDateTime
  systolic : Option Int
  diastolic : Option Int
  pulse_rate : Option Int
deriving DecidableEq, Repr

/-- The ge/le field constraint of a pydantic optional integer field:
a missing value passes, a present value must lie in the closed range. -/
def checkRange (lo hi : Int) (v : Option Int) : Bool :=
  match v with
  | none => true
  | some n => decide (lo ≤ n) && decide (n ≤ hi)

/-- validate_not_future of schemas.py: a naive datetime is made
UTC-aware keeping its wall clock, and the result must not be after the
current time (nowWall is the instant datetime.now(UTC) returns). -/
def validate_not_future (nowWall : Int) (v : PyDateTime) : Except String PyDateTime :=
  let v_aware : PyDateTime := if v.tz.isSome then v else { v with tz := some 0 }
  if normalizedInstant v_aware > nowWall then .error "recorded_at cannot be in the future"
  else .ok v

/-- validate_vitals of schemas.py: at least one vital sign must be
present and the blood-pressure pair must be complete. -/
def validate_vitals (v : VitalSignsCreate) : Except String VitalSignsCreate :=
  let has_bp := v.systolic.isSome || v.diastolic.isSome
  let has_pulse := v.pulse_rate.isSome
  if !has_bp && !has_pulse then .error "At least one vital sign must be provided"
  else if v.systolic.isNone != v.diastolic.isNone then
    .error "Both systolic and diastolic must be provided together"
  else .ok v

/-- Constructing a VitalSignsCreate runs the pydantic field constraints
(systolic 50..300, diastolic 30..200, pulse_rate 20..300, recorded_at
not in the future) and then the model validator validate_vitals. -/
def mkVitalSignsCreate (nowWall : Int) (inp : VitalSignsCreate) : Except String VitalSignsCreate :=
  if checkRange 50 300 inp.systolic then
    if checkRange 30 200 inp.diastolic then
      if checkRange 20 300 inp.pulse_rate then
        match validate_not_future nowWall inp.recorded_at with
        | .ok r => validate_vitals { inp with recorded_at := r }
        | .error e => .error e
      else .error "pulse_rate out of range"
    else .error "diastolic out of range"
  else .error "systolic out of range"

/-- A scalar of a FLAT composition: a number or a string. -/
inductive FlatValue where
  | fint (n : Int)
  | fstr (s : String)
deriving DecidableEq, Repr

/-- Python dict assignment on an insertion-ordered association list:
an existing key keeps its position and gets the new value, a new key is
appended at the end. -/
def dictSet (d : List (String × FlatValue)) (k : String) (v : FlatValue) :
    List (String × FlatValue) :=
  if d.any (fun p => p.1 == k) then d.map (fun p => if p.1 == k then (k, v) else p)
  else d ++ [(k, v)]

/-- Python dict.update over an insertion-ordered association list. -/
def dictUpdate (d : List (String × FlatValue)) (kvs : List (String × FlatValue)) :
    List (String × FlatValue) :=
  kvs.foldl (fun acc kv => dictSet acc kv.1 kv.2) d

/-- _build_flat_composition of service.py: the FLAT openEHR composition
for a vital-signs record, as an insertion-ordered path-to-scalar map.
The iso parameter is datetime.isoformat of the Python runtime. -/
def buildFlatComposition (iso : PyDateTime → String) (data : VitalSignsCreate) :
    List (String × FlatValue) :=
  let recorded_at_iso := iso data.recorded_at
  let base := "vital_signs"
  let composition : List (String × FlatValue) :=
    [("ctx/language", .fstr "en"),
     ("ctx/territory", .fstr "US"),
     ("ctx/time", .fstr recorded_at_iso)]
  let composition :=
    match data.systolic, data.diastolic with
    | some s, some d =>
        let bp_path := base ++ "/blood_pressure:0/any_event:0"
        dictUpdate composition
          [(bp_path ++ "/systolic|magnitude", .fint s),
           (bp_path ++ "/systolic|unit", .fstr "mm[Hg]"),
           (bp_path ++ "/diastolic|magnitude", .fint d),
           (bp_path ++ "/diastolic|unit", .fstr "mm[Hg]"),
           (bp_path ++ "/time", .fstr recorded_at_iso)]
    | _, _ => composition
  let composition :=
    match data.pulse_rate with
    | some pr =>
        let pulse_path := base ++ "/pulse_heart_beat:0/any_event:0"
        dictUpdate composition
          [(pulse_path ++ "/rate|magnitude", .fint pr),
           (pulse_path ++ "/rate|unit", .fstr "/min"),
           (pulse_path ++ "/time", .fstr recorded_at_iso)]
    | none => composition
  composition

/-- ARCHETYPES of service.py, composition entry. -/
def compositionArchetypeId : String := "openEHR-EHR-COMPOSITION.encounter.v1"

/-- ARCHETYPES of service.py, blood-pressure entry, archetype id. -/
def bloodPressureArchetypeId : String := "openEHR-EHR-OBSERVATION.blood_pressure.v1"

/-- ARCHETYPES of service.py, blood-pressure entry, systolic path. -/
def bloodPressureSystolicPath : String :=
  "/data[at0001]/events[at0006]/data[at0003]/items[at0004]/value"

/-- ARCHETYPES of service.py, blood-pressure entry, diastolic path. -/
def bloodPressureDiastolicPath : String :=
  "/data[at0001]/events[at0006]/data[at0003]/items[at0005]/value"

/-- ARCHETYPES of service.py, pulse entry, archetype id. -/
def pulseArchetypeId : String := "openEHR-EHR-OBSERVATION.pulse.v1"

/-- ARCHETYPES of service.py, pulse entry, rate path. -/
def pulseRatePath : String := "/data[at0002]/events[at0003]/data[at0001]/items[at0004]/value"

/-- TEMPLATE_ID of service.py. -/
def TEMPLATE_ID : String := "IDCR - Vital Signs Encounter.v1"

/-- PathMappingResponse of schemas.py. -/
structure PathMappingResponse where
  field : String
  archetype_id : String
  archetype_path : String
  flat_path : String
  value : Option Int
  unit : Option String
deriving DecidableEq, Repr

/-- OpenEHRMetadataResponse of schemas.py.  The composition uid is kept
as the raw row scalar it came from. -/
structure OpenEHRMetadataResponse where
  composition_uid : Value
  template_id : String
  archetype_ids : List String
  ehr_id : String
  path_mappings : List PathMappingResponse
deriving DecidableEq, Repr

/-- _build_openehr_metadata of service.py. -/
def build_openehr_metadata (composition_uid : Value) (ehr_id : String)
    (data : VitalSignsCreate) : OpenEHRMetadataResponse :=
  let archetype_ids := [compositionArchetypeId]
  let path_mappings : List PathMappingResponse := []
  let step1 :=
    match data.systolic, data.diastolic with
    | some s, some d =>
        (archetype_ids ++ [bloodPressureArchetypeId],
         path_mappings ++
           ([{ field := "systolic",
               archetype_id := bloodPressureArchetypeId,
               archetype_path := bloodPressureSystolicPath ++ "/magnitude",
               flat_path := "vital_signs/blood_pressure:0/any_event:0/systolic|magnitude",
               value := some s,
               unit := some "mm[Hg]" },
             { field := "diastolic",
               archetype_id := bloodPressureArchetypeId,
               archetype_path := bloodPressureDiastolicPath ++ "/magnitude",
               flat_path := "vital_signs/blood_pressure:0/any_event:0/diastolic|magnitude",
               value := some d,
               unit := some "mm[Hg]" }] : List PathMappingResponse))
    | _, _ => (archetype_ids, path_mappings)
  let step2 :=
    match data.pulse_rate with
    | some pr =>
        (step1.1 ++ [pulseArchetypeId],
         step1.2 ++
           ([{ field := "pulse_rate",
               archetype_id := pulseArchetypeId,
               archetype_path := pulseRatePath ++ "/magnitude",
               flat_path := "vital_signs/pulse_heart_beat:0/any_event:0/rate|magnitude",
               value := some pr,
               unit := some "/min" }] : List PathMappingResponse))
    | none => step1
  { composition_uid := composition_uid
    template_id := TEMPLATE_ID
    archetype_ids := step2.1
    ehr_id := ehr_id
    path_mappings := step2.2 }

/-- VitalSignsResponse of schemas.py, with the id kept as the raw row
scalar it was built from. -/
structure VitalSignsResponse where
  id : Value
  patient_id : String
  encounter_id : Option String
  recorded_at : PyDateTime
  systolic : Option Int
  diastolic : Option Int
  pulse_rate : Option Int
  created_at : PyDateTime
  openehr_metadata : OpenEHRMetadataResponse
deriving DecidableEq, Repr

/-- VitalSignsListResponse of schemas.py. -/
structure VitalSignsListResponse where
  items : List VitalSignsResponse
  total : Nat
deriving DecidableEq, Repr

/-- The patient row returned by find_patient_by_id, reduced to the one
field the observation service reads. -/
structure Patient where
  ehrId : String
deriving DecidableEq, Repr

/-- The EHRBase create_composition result, reduced to the two uid
fields the service reads (each defaulting to the empty string). -/
structure CreateResult where
  uidValue : String
  compositionUid : String
deriving DecidableEq, Repr

/-- Python x or y on strings: the left operand unless it is empty. -/
def pyOrStr (a b : String) : String := if a = "" then b else a

/-- record_vital_signs of service.py.  The patient lookup result and
the outcome of the EHRBase write are passed in explicitly; nowUtc is
the datetime.utcnow() of the call. -/
def record_vital_signs (iso : PyDateTime → String) (nowUtc : PyDateTime)
    (patient : Option Patient) (createResult : Except String CreateResult)
    (data : VitalSignsCreate) : Except String VitalSignsResponse :=
  match patient with
  | none => .error "Patient not found"
  | some p =>
    let _flat := buildFlatComposition iso data
    let composition_uid :=
      match createResult with
      | .ok result => pyOrStr result.uidValue result.compositionUid
      | .error _ => "placeholder-" ++ iso nowUtc
    .ok { id := .vstr composition_uid
          patient_id := data.patient_id
          encounter_id := data.encounter_id
          recorded_at := data.recorded_at
          systolic := data.systolic
          diastolic := data.diastolic
          pulse_rate := data.pulse_rate
          created_at := nowUtc
          openehr_metadata := build_openehr_metadata (.vstr composition_uid) p.ehrId data }

/-- The POST /vital-signs pipeline: request validation (pydantic
construction of VitalSignsCreate) happens before the service runs. -/
def postVitalSigns (iso : PyDateTime → String) (nowWall : Int) (nowUtc : PyDateTime)
    (patient : Option Patient) (createResult : Except String CreateResult)
    (inp : VitalSignsCreate) : Except String VitalSignsResponse :=
  match mkVitalSignsCreate nowWall inp with
  | .error e => .error e
  | .ok data => record_vital_signs iso nowUtc patient createResult data

/-- VITAL_SIGNS_QUERY of queries.py, verbatim. -/
def VITAL_SIGNS_QUERY : String :=
  "\nSELECT\n    c/uid/value as composition_id,\n    c/context/start_time/value as recorded_at,\n    bp/data[at0001]/events[at0006]/data[at0003]/items[at0004]/value/magnitude as systolic,\n    bp/data[at0001]/events[at0006]/data[at0003]/items[at0005]/value/magnitude as diastolic,\n    pulse/data[at0002]/events[at0003]/data[at0001]/items[at0004]/value/magnitude as pulse_rate\nFROM EHR e\nCONTAINS COMPOSITION c\nCONTAINS (\n    OBSERVATION bp[openEHR-EHR-OBSERVATION.blood_pressure.v1] OR\n    OBSERVATION pulse[openEHR-EHR-OBSERVATION.pulse.v1]\n)\nWHERE e/ehr_id/value = $ehr_id\nORDER BY c/context/start_time/value DESC\n"

/-- VITAL_SIGNS_DATE_RANGE_QUERY of queries.py, verbatim. -/
def VITAL_SIGNS_DATE_RANGE_QUERY : String :=
  "\nSELECT\n    c/uid/value as composition_id,\n    c/context/start_time/value as recorded_at,\n    bp/data[at0001]/events[at0006]/data[at0003]/items[at0004]/value/magnitude as systolic,\n    bp/data[at0001]/events[at0006]/data[at0003]/items[at0005]/value/magnitude as diastolic,\n    pulse/data[at0002]/events[at0003]/data[at0001]/items[at0004]/value/magnitude as pulse_rate\nFROM EHR e\nCONTAINS COMPOSITION c\nCONTAINS (\n    OBSERVATION bp[openEHR-EHR-OBSERVATION.blood_pressure.v1] OR\n    OBSERVATION pulse[openEHR-EHR-OBSERVATION.pulse.v1]\n)\nWHERE e/ehr_id/value = $ehr_id\nAND c/context/start_time/value >= $from_date\nAND c/context/start_time/value <= $to_date\nORDER BY c/context/start_time/value DESC\n"

/-- The query-selection step of get_vital_signs_for_patient: the
date-bounded template with three named parameters when both dates are
supplied (datetimes are always truthy in Python), otherwise the
unbounded template with the ehr id alone. -/
def selectQuery (iso : PyDateTime → String) (ehr_id : String)
    (from_date to_date : Option PyDateTime) : String × List (String × String) :=
  match from_date, to_date with
  | some f, some t =>
      (VITAL_SIGNS_DATE_RANGE_QUERY,
       [("ehr_id", ehr_id), ("from_date", iso f), ("to_date", iso t)])
  | _, _ => (VITAL_SIGNS_QUERY, [("ehr_id", ehr_id)])

/-- A query result as the store returns it: one optional name per
column descriptor, and rows of scalars. -/
structure QueryResult where
  columns : List (Option String)
  rows : List (List Value)
deriving DecidableEq, Repr

/-- The per-row column names: c.get with a positional default. -/
def colNamesOf (columns : List (Option String)) : List String :=
  columns.enum.map (fun p => p.2.getD ("col" ++ toString p.1))

/-- dict(zip(col_names, row, strict=False)): positional pairing
truncated to the shorter of the two lists. -/
def rowDict (names : List String) (row : List Value) : List (String × Value) :=
  names.zip row

/-- Python dict lookup on the pairing: with duplicate keys the later
binding wins, as in a dict built from pairs. -/
def dictGet (d : List (String × Value)) (k : String) : Option Value :=
  d.reverse.lookup k

/-- Python dict .get with a default value. -/
def dictGetD (d : List (String × Value)) (k : String) (dflt : Value) : Value :=
  (dictGet d k).getD dflt

/-- The character list a starts the character list b. -/
def leadsWith : List Char → List Char → Bool
  | [], _ => true
  | _ :: _, [] => false
  | a :: as, b :: bs => a == b && leadsWith as bs

/-- One fuelled pass of Python str.replace over a character list:
non-overlapping occurrences of a non-empty pattern are replaced left to
right.  The fuel starts at the list length and never runs out. -/
def pyReplaceAux (pattern repl : List Char) : Nat → List Char → List Char
  | _, [] => []
  | 0, l => l
  | Nat.succ fuel, c :: rest =>
    if leadsWith pattern (c :: rest) then
      repl ++ pyReplaceAux pattern repl fuel (List.drop (pattern.length - 1) rest)
    else c :: pyReplaceAux pattern repl fuel rest

/-- Python str.replace for a non-empty pattern (the empty pattern is
never used by the code under study and is left as the identity). -/
def pyReplace (s pattern repl : String) : String :=
  if pattern = "" then s
  else ⟨pyReplaceAux pattern.toList repl.toList s.toList.length s.toList⟩

/-- Python int() on a string: optional surrounding whitespace, an
optional sign, then at least one digit; anything else raises. -/
def pyIntOfString (s : String) : Except String Int :=
  let t := ((s.toList.dropWhile Char.isWhitespace).reverse.dropWhile Char.isWhitespace).reverse
  let isNeg : Bool := match t with | c :: _ => c == Char.ofNat 45 | [] => false
  let isPos : Bool := match t with | c :: _ => c == Char.ofNat 43 | [] => false
  let digits := if isNeg || isPos then t.tail else t
  if !digits.isEmpty && digits.all Char.isDigit then
    let mag : Nat := digits.foldl (fun acc c => acc * 10 + (c.toNat - 48)) 0
    .ok (if isNeg then -(mag : Int) else (mag : Int))
  else .error ("invalid literal for int: " ++ s)

/-- Python int() on a row scalar. -/
def pyInt (v : Value) : Except String Int :=
  match v with
  | .vnull => .error "int of NoneType"
  | .vint n => .ok n
  | .vstr s => pyIntOfString s

/-- The numeric-field policy of the reconstructor:
int(x) if x else None.  A missing or falsy value becomes absent; a
truthy value goes through int(), which can raise. -/
def numField (v : Option Value) : Except String (Option Int) :=
  match v with
  | none => .ok none
  | some w => if w.truthy then (pyInt w).map some else .ok none

/-- The recorded_at recovery of the reconstructor: a string value has a
trailing Z rewritten to an explicit UTC offset and is parsed with
datetime.fromisoformat (the parseIso parameter); a parse failure or a
non-string value (AttributeError on .replace) falls back to
datetime.utcnow(), the nowUtc parameter. -/
def parseRecordedAt (parseIso : String → Option PyDateTime) (nowUtc : PyDateTime)
    (v : Value) : PyDateTime :=
  match v with
  | .vstr s => (parseIso (pyReplace s "Z" "+00:00")).getD nowUtc
  | _ => nowUtc

/-- One loop iteration of get_vital_signs_for_patient: rebuild a
VitalSignsResponse from one row.  The int() conversions run first, then
the VitalSignsCreate constructed for the metadata runs the full pydantic
validation; either can raise, which propagates out of the request. -/
def reconstructRow (parseIso : String → Option PyDateTime) (nowWall : Int)
    (nowUtc : PyDateTime) (patient_id ehr_id : String)
    (names : List String) (row : List Value) : Except String VitalSignsResponse :=
  let d := rowDict names row
  let composition_uid := dictGetD d "composition_id" (.vstr "")
  let recorded_at := parseRecordedAt parseIso nowUtc (dictGetD d "recorded_at" (.vstr ""))
  match numField (dictGet d "systolic") with
  | .error e => .error e
  | .ok systolic =>
    match numField (dictGet d "diastolic") with
    | .error e => .error e
    | .ok diastolic =>
      match numField (dictGet d "pulse_rate") with
      | .error e => .error e
      | .ok pulse_rate =>
        match mkVitalSignsCreate nowWall
            { patient_id := patient_id, encounter_id := none, recorded_at := recorded_at,
              systolic := systolic, diastolic := diastolic, pulse_rate := pulse_rate } with
        | .error e => .error e
        | .ok data =>
          .ok { id := composition_uid
                patient_id := patient_id
                encounter_id := none
                recorded_at := recorded_at
                systolic := systolic
                diastolic := diastolic
                pulse_rate := pulse_rate
                created_at := recorded_at
                openehr_metadata := build_openehr_metadata composition_uid ehr_id data }

/-- The row loop: items are built in order and the first raised error
aborts the whole request. -/
def mapExcept (f : α → Except String β) : List α → Except String (List β)
  | [] => .ok []
  | a :: as =>
    match f a with
    | .error e => .error e
    | .ok b =>
      match mapExcept f as with
      | .error e => .error e
      | .ok bs => .ok (b :: bs)

/-- get_vital_signs_for_patient of service.py.  The patient lookup and
the store call are explicit parameters; a missing patient or a failed
query yields the empty response, and rows[skip : skip + limit] is
processed in order with the full result length reported as total. -/
def get_vital_signs_for_patient (iso : PyDateTime → String)
    (parseIso : String → Option PyDateTime) (nowWall : Int) (nowUtc : PyDateTime)
    (patient : Option Patient)
    (executeAql : String → List (String × String) → Except String QueryResult)
    (patient_id : String) (from_date to_date : Option PyDateTime)
    (skip limit : Nat) : Except String VitalSignsListResponse :=
  match patient with
  | none => .ok { items := [], total := 0 }
  | some p =>
    let qp := selectQuery iso p.ehrId from_date to_date
    match executeAql qp.1 qp.2 with
    | .error _ => .ok { items := [], total := 0 }
    | .ok result =>
      let names := colNamesOf result.columns
      match mapExcept (reconstructRow parseIso nowWall nowUtc patient_id p.ehrId names)
          ((result.rows.drop skip).take limit) with
      | .error e => .error e
      | .ok items => .ok { items := items, total := result.rows.length }

/-- A flat-composition scalar as it would come back in a query-result
row, with a missing path reported as null. -/
def flatToValue : Option FlatValue → Value
  | none => .vnull
  | some (.fint n) => .vint n
  | some (.fstr s) => .vstr s

/-- Serialize a record through the Composition Builder field set: a
one-row QueryResult whose columns are the five logical names and whose
values are read back out of the FLAT composition the builder emitted. -/
def serializeRecord (iso : PyDateTime → String) (cid : String)
    (data : VitalSignsCreate) : QueryResult :=
  let flat := buildFlatComposition iso data
  { columns := [some "composition_id", some "recorded_at", some "systolic",
                some "diastolic", some "pulse_rate"],
    rows := [[.vstr cid,
              flatToValue (flat.lookup "ctx/time"),
              flatToValue (flat.lookup "vital_signs/blood_pressure:0/any_event:0/systolic|magnitude"),
              flatToValue (flat.lookup "vital_signs/blood_pressure:0/any_event:0/diastolic|magnitude"),
              flatToValue (flat.lookup "vital_signs/pulse_heart_beat:0/any_event:0/rate|magnitude")]] }

/-- Spec-side range condition on an optional field: absent passes, a
present value lies within the closed interval. -/
def InRangeOpt (lo hi : Int) : Option Int → Prop
  | none => True
  | some n => lo ≤ n ∧ n ≤ hi

instance instDecidableInRangeOpt (lo hi : Int) : (v : Option Int) → Decidable (InRangeOpt lo hi v)
  | none => .isTrue trivial
  | some n => inferInstanceAs (Decidable (lo ≤ n ∧ n ≤ hi))

/-- Spec-side record invariant: the blood-pressure pair is complete and
at least one vital sign is present. -/
def satisfiesVitalsInvariant (v : VitalSignsCreate) : Prop :=
  v.systolic.isSome = v.diastolic.isSome ∧
  (v.systolic.isSome = true ∨ v.pulse_rate.isSome = true)

/-- Spec-side violation of the record invariant: exactly one of the
blood-pressure pair is supplied, or no vital sign at all. -/
def violatesVitalsInvariant (v : VitalSignsCreate) : Prop :=
  v.systolic.isSome ≠ v.diastolic.isSome ∨
  (v.systolic = none ∧ v.diastolic = none ∧ v.pulse_rate = none)

instance instDecidableSatisfiesVitals (v : VitalSignsCreate) :
    Decidable (satisfiesVitalsInvariant v) :=
  inferInstanceAs (Decidable (_ ∧ (_ ∨ _)))

instance instDecidableViolatesVitals (v : VitalSignsCreate) :
    Decidable (violatesVitalsInvariant v) :=
  inferInstanceAs (Decidable (_ ∨ (_ ∧ _ ∧ _)))

/-- Spec-side validity of a full record: field ranges, a recording time
not after the given current instant, and the vitals invariant. -/
def ValidRecord (nowWall : Int) (v : VitalSignsCreate) : Prop :=
  InRangeOpt 50 300 v.systolic ∧ InRangeOpt 30 200 v.diastolic ∧
  InRangeOpt 20 300 v.pulse_rate ∧ normalizedInstant v.recorded_at ≤ nowWall ∧
  satisfiesVitalsInvariant v

instance instDecidableValidRecord (nowWall : Int) (v : VitalSignsCreate) :
    Decidable (ValidRecord nowWall v) :=
  inferInstanceAs (Decidable (_ ∧ _ ∧ _ ∧ _ ∧ _))

/-- The character list sub occurs contiguously inside the second list. -/
def hasSubList (sub : List Char) : List Char → Bool
  | [] => leadsWith sub []
  | c :: rest => leadsWith sub (c :: rest) || hasSubList sub rest

/-- The substring sub occurs somewhere in s. -/
def occursIn (sub s : String) : Prop := hasSubList sub.toList s.toList = true

instance instDecidableOccursIn (sub s : String) : Decidable (occursIn sub s) :=
  inferInstanceAs (Decidable (_ = true))

/-- The three context keys every composition carries. -/
def ctxKeys : List String := ["ctx/language", "ctx/territory", "ctx/time"]

/-- The five blood-pressure keys of the composition. -/
def bpKeys : List String :=
  ["vital_signs/blood_pressure:0/any_event:0/systolic|magnitude",
   "vital_signs/blood_pressure:0/any_event:0/systolic|unit",
   "vital_signs/blood_pressure:0/any_event:0/diastolic|magnitude",
   "vital_signs/blood_pressure:0/any_event:0/diastolic|unit",
   "vital_signs/blood_pressure:0/any_event:0/time"]

/-- The three pulse keys of the composition. -/
def pulseKeys : List String :=
  ["vital_signs/pulse_heart_beat:0/any_event:0/rate|magnitude",
   "vital_signs/pulse_heart_beat:0/any_event:0/rate|unit",
   "vital_signs/pulse_heart_beat:0/any_event:0/time"]

lemma any_key (d : List (String × FlatValue)) (k : String) :
    d.any (fun p => p.1 == k) = (d.map Prod.fst).any (fun x => x == k) := by
  induction d with
  | nil => rfl
  | cons p rest ih => simp [ih]

lemma dictSet_append (d : List (String × FlatValue)) (k : String) (v : FlatValue)
    (h : k ∉ d.map Prod.fst) : dictSet d k v = d ++ [(k, v)] := by
  unfold dictSet
  rw [any_key]
  have hfalse : (d.map Prod.fst).any (fun x => x == k) = false := by
    rw [List.any_eq_false]
    intro x hx
    have hne : x ≠ k := by
      rintro rfl
      exact h hx
    exact fun hb => hne (eq_of_beq hb)
  rw [hfalse]
  simp

lemma dictUpdate_append (d kvs : List (String × FlatValue))
    (h1 : ∀ k ∈ kvs.map Prod.fst, k ∉ d.map Prod.fst)
    (h2 : (kvs.map Prod.fst).Nodup) :
    dictUpdate d kvs = d ++ kvs := by
  induction kvs generalizing d with
  | nil => simp [dictUpdate]
  | cons kv rest ih =>
    have hk : kv.1 ∉ d.map Prod.fst := h1 kv.1 (by simp)
    have hstep : dictSet d kv.1 kv.2 = d ++ [kv] := dictSet_append d kv.1 kv.2 hk
    have hrec : dictUpdate (d ++ [kv]) rest = (d ++ [kv]) ++ rest := by
      apply ih
      · intro k hkmem
        simp only [List.map_append, List.map_cons, List.map_nil, List.mem_append,
          List.mem_singleton, not_or]
        refine ⟨h1 k (by simp [hkmem]), ?_⟩
        rintro rfl
        simp only [List.map_cons, List.nodup_cons] at h2
        exact h2.1 hkmem
      · simp only [List.map_cons, List.nodup_cons] at h2
        exact h2.2
    calc dictUpdate d (kv :: rest)
        = dictUpdate (dictSet d kv.1 kv.2) rest := rfl
      _ = dictUpdate (d ++ [kv]) rest := by rw [hstep]
      _ = (d ++ [kv]) ++ rest := hrec
      _ = d ++ (kv :: rest) := by simp

lemma dictUpdate_append2 (d kvs1 kvs2 : List (String × FlatValue))
    (h1 : ∀ k ∈ kvs1.map Prod.fst, k ∉ d.map Prod.fst)
    (h2 : (kvs1.map Prod.fst).Nodup)
    (h3 : ∀ k ∈ kvs2.map Prod.fst, k ∉ d.map Prod.fst ++ kvs1.map Prod.fst)
    (h4 : (kvs2.map Prod.fst).Nodup) :
    dictUpdate (dictUpdate d kvs1) kvs2 = d ++ kvs1 ++ kvs2 := by
  rw [dictUpdate_append d kvs1 h1 h2]
  rw [dictUpdate_append (d ++ kvs1) kvs2 (by simpa using h3) h4]

lemma checkRange_eq_true_iff (lo hi : Int) (v : Option Int) :
    checkRange lo hi v = true ↔ InRangeOpt lo hi v := by
  cases v <;> simp [checkRange, InRangeOpt]

lemma validate_not_future_eq (nw : Int) (v : PyDateTime) :
    validate_not_future nw v =
      if normalizedInstant v > nw then .error "recorded_at cannot be in the future"
      else .ok v := by
  cases htz : v.tz <;>
    simp [validate_not_future, normalizedInstant, htz]

lemma validate_vitals_ok_self_iff (v : VitalSignsCreate) :
    validate_vitals v = .ok v ↔ satisfiesVitalsInvariant v := by
  rcases v with ⟨pid, eid, t, sys, dia, pr⟩
  rcases sys with _ | s <;> rcases dia with _ | d <;> rcases pr with _ | p <;>
    simp [validate_vitals, satisfiesVitalsInvariant]

lemma validate_vitals_ok_shape (v w : VitalSignsCreate)
    (h : validate_vitals v = .ok w) : w = v := by
  rcases v with ⟨pid, eid, t, sys, dia, pr⟩
  rcases sys with _ | s <;> rcases dia with _ | d <;> rcases pr with _ | p <;>
    simp [validate_vitals] at h <;> simp [h]

lemma recorded_at_eta (inp : VitalSignsCreate) :
    ({ inp with recorded_at := inp.recorded_at }) = inp := rfl

lemma mkVitalSignsCreate_ok_shape (nw : Int) (inp d : VitalSignsCreate)
    (h : mkVitalSignsCreate nw inp = .ok d) : d = inp := by
  unfold mkVitalSignsCreate at h
  rw [validate_not_future_eq] at h
  by_cases h1 : checkRange 50 300 inp.systolic = true
  · by_cases h2 : checkRange 30 200 inp.diastolic = true
    · by_cases h3 : checkRange 20 300 inp.pulse_rate = true
      · by_cases h4 : normalizedInstant inp.recorded_at > nw
        · simp [h1, h2, h3, h4] at h
        · simp only [h1, h2, h3, if_true] at h
          rw [if_neg h4] at h
          simp only [] at h
          exact validate_vitals_ok_shape _ _ h
      · simp [h1, h2, h3] at h
    · simp [h1, h2] at h
  · simp [h1] at h

lemma mkVitalSignsCreate_ok_self_iff (nw : Int) (inp : VitalSignsCreate) :
    mkVitalSignsCreate nw inp = .ok inp ↔
      (InRangeOpt 50 300 inp.systolic ∧ InRangeOpt 30 200 inp.diastolic ∧
       InRangeOpt 20 300 inp.pulse_rate ∧ normalizedInstant inp.recorded_at ≤ nw ∧
       satisfiesVitalsInvariant inp) := by
  unfold mkVitalSignsCreate
  rw [validate_not_future_eq]
  by_cases h1 : checkRange 50 300 inp.systolic = true
  · by_cases h2 : checkRange 30 200 inp.diastolic = true
    · by_cases h3 : checkRange 20 300 inp.pulse_rate = true
      · by_cases h4 : normalizedInstant inp.recorded_at > nw
        · rw [if_pos h1, if_pos h2, if_pos h3, if_pos h4]
          constructor
          · intro hh
            cases hh
          · rintro ⟨-, -, -, h5, -⟩
            omega
        · rw [if_pos h1, if_pos h2, if_pos h3, if_neg h4]
          simp only []
          rw [recorded_at_eta, validate_vitals_ok_self_iff]
          have hA := (checkRange_eq_true_iff 50 300 inp.systolic).mp h1
          have hB := (checkRange_eq_true_iff 30 200 inp.diastolic).mp h2
          have hC := (checkRange_eq_true_iff 20 300 inp.pulse_rate).mp h3
          have hD : normalizedInstant inp.recorded_at ≤ nw := by omega
          simp [hA, hB, hC, hD]
      · rw [if_pos h1, if_pos h2, if_neg h3]
        constructor
        · intro hh
          cases hh
        · rintro ⟨-, -, hC, -, -⟩
          exact (h3 ((checkRange_eq_true_iff 20 300 inp.pulse_rate).mpr hC)).elim
    · rw [if_pos h1, if_neg h2]
      constructor
      · intro hh
        cases hh
      · rintro ⟨-, hB, -, -, -⟩
        exact (h2 ((checkRange_eq_true_iff 30 200 inp.diastolic).mpr hB)).elim
  · rw [if_neg h1]
    constructor
    · intro hh
      cases hh
    · rintro ⟨hA, -, -, -, -⟩
      exact (h1 ((checkRange_eq_true_iff 50 300 inp.systolic).mpr hA)).elim

lemma mkVitalSignsCreate_error_of_violation (nw : Int) (inp : VitalSignsCreate)
    (h : violatesVitalsInvariant inp) :
    ∃ e, mkVitalSignsCreate nw inp = .error e := by
  cases hres : mkVitalSignsCreate nw inp with
  | error e => exact ⟨e, rfl⟩
  | ok d =>
    exfalso
    have hd : d = inp := mkVitalSignsCreate_ok_shape nw inp d hres
    subst hd
    have hsat := ((mkVitalSignsCreate_ok_self_iff nw d).mp hres).2.2.2.2
    rcases h with hmis | ⟨hs, hdd, hp⟩
    · exact hmis hsat.1
    · rcases hsat.2 with hx | hx <;> simp [hs, hdd, hp] at hx

lemma buildFlatComposition_eq (iso : PyDateTime → String) (data : VitalSignsCreate) :
    buildFlatComposition iso data =
      [("ctx/language", FlatValue.fstr "en"),
       ("ctx/territory", FlatValue.fstr "US"),
       ("ctx/time", FlatValue.fstr (iso data.recorded_at))]
      ++ (match data.systolic, data.diastolic with
          | some s, some d =>
            [("vital_signs/blood_pressure:0/any_event:0/systolic|magnitude", FlatValue.fint s),
             ("vital_signs/blood_pressure:0/any_event:0/systolic|unit", FlatValue.fstr "mm[Hg]"),
             ("vital_signs/blood_pressure:0/any_event:0/diastolic|magnitude", FlatValue.fint d),
             ("vital_signs/blood_pressure:0/any_event:0/diastolic|unit", FlatValue.fstr "mm[Hg]"),
             ("vital_signs/blood_pressure:0/any_event:0/time", FlatValue.fstr (iso data.recorded_at))]
          | _, _ => [])
      ++ (match data.pulse_rate with
          | some p =>
            [("vital_signs/pulse_heart_beat:0/any_event:0/rate|magnitude", FlatValue.fint p),
             ("vital_signs/pulse_heart_beat:0/any_event:0/rate|unit", FlatValue.fstr "/min"),
             ("vital_signs/pulse_heart_beat:0/any_event:0/time", FlatValue.fstr (iso data.recorded_at))]
          | none => []) := by
  rcases data with ⟨pid, eid, t, sys, dia, pr⟩
  rcases sys with _ | s <;> rcases dia with _ | d <;> rcases pr with _ | p
  · rfl
  · rfl
  · rfl
  · rfl
  · rfl
  · rfl
  · show dictUpdate _ _ = _
    rw [dictUpdate_append]
    · simp
    · simp only [List.map_cons, List.map_nil]
      decide
    · simp only [List.map_cons, List.map_nil]
      decide
  · show dictUpdate (dictUpdate _ _) _ = _
    rw [dictUpdate_append2]
    · simp
    · simp only [List.map_cons, List.map_nil]
      decide
    · simp only [List.map_cons, List.map_nil]
      decide
    · simp only [List.map_cons, List.map_nil]
      decide
    · simp only [List.map_cons, List.map_nil]
      decide

/-- C1: for every record the flat composition is exactly the three
context fields, then (iff both blood-pressure values are present) the
five blood-pressure entries with verbatim magnitudes and the fixed unit
mm[Hg], then (iff the pulse rate is present) the three pulse entries
with the fixed unit /min; the key list shows no other key is ever
emitted. -/
theorem c1_flat_composition_shape (iso : PyDateTime → String) (data : VitalSignsCreate) :
    buildFlatComposition iso data =
      [("ctx/language", FlatValue.fstr "en"),
       ("ctx/territory", FlatValue.fstr "US"),
       ("ctx/time", FlatValue.fstr (iso data.recorded_at))]
      ++ (match data.systolic, data.diastolic with
          | some s, some d =>
            [("vital_signs/blood_pressure:0/any_event:0/systolic|magnitude", FlatValue.fint s),
             ("vital_signs/blood_pressure:0/any_event:0/systolic|unit", FlatValue.fstr "mm[Hg]"),
             ("vital_signs/blood_pressure:0/any_event:0/diastolic|magnitude", FlatValue.fint d),
             ("vital_signs/blood_pressure:0/any_event:0/diastolic|unit", FlatValue.fstr "mm[Hg]"),
             ("vital_signs/blood_pressure:0/any_event:0/time", FlatValue.fstr (iso data.recorded_at))]
          | _, _ => [])
      ++ (match data.pulse_rate with
          | some p =>
            [("vital_signs/pulse_heart_beat:0/any_event:0/rate|magnitude", FlatValue.fint p),
             ("vital_signs/pulse_heart_beat:0/any_event:0/rate|unit", FlatValue.fstr "/min"),
             ("vital_signs/pulse_heart_beat:0/any_event:0/time", FlatValue.fstr (iso data.recorded_at))]
          | none => [])
    ∧ (buildFlatComposition iso data).map Prod.fst =
      ctxKeys
      ++ (if data.systolic.isSome && data.diastolic.isSome then bpKeys else [])
      ++ (if data.pulse_rate.isSome then pulseKeys else []) := by
  refine ⟨buildFlatComposition_eq iso data, ?_⟩
  rw [buildFlatComposition_eq iso data]
  rcases data with ⟨pid, eid, t, sys, dia, pr⟩
  rcases sys with _ | s <;> rcases dia with _ | d <;> rcases pr with _ | p <;>
    simp [ctxKeys, bpKeys, pulseKeys]

/-- C2: a request violating the record invariant (exactly one of the
blood-pressure pair, or no vital sign at all) is rejected at
construction with a validation error, and the outcome does not depend
on the external store, which is therefore never consulted; a record
satisfying the invariant passes validate_vitals unchanged. -/
theorem c2_invariant_rejection (iso : PyDateTime → String) (nowWall : Int)
    (nowUtc : PyDateTime) (patient : Option Patient)
    (st1 st2 : Except String CreateResult) (inp good : VitalSignsCreate)
    (h1 : violatesVitalsInvariant inp) (h2 : satisfiesVitalsInvariant good) :
    (∃ e, postVitalSigns iso nowWall nowUtc patient st1 inp = .error e)
    ∧ postVitalSigns iso nowWall nowUtc patient st1 inp
        = postVitalSigns iso nowWall nowUtc patient st2 inp
    ∧ validate_vitals good = .ok good := by
  obtain ⟨e, he⟩ := mkVitalSignsCreate_error_of_violation nowWall inp h1
  refine ⟨⟨e, ?_⟩, ?_, (validate_vitals_ok_self_iff good).mpr h2⟩
  · unfold postVitalSigns
    rw [he]
  · unfold postVitalSigns
    rw [he]

/-- Witness for C2: a concrete request with only a systolic value is
rejected identically under two different store behaviours, and a
concrete complete record passes validate_vitals unchanged. -/
theorem c2_invariant_rejection_witness :
    (∃ e, postVitalSigns (fun _ => "") 0 ⟨0, none⟩ (some ⟨"ehr1"⟩) (.error "down")
        ⟨"P1", none, ⟨0, none⟩, some 120, none, none⟩ = .error e)
    ∧ postVitalSigns (fun _ => "") 0 ⟨0, none⟩ (some ⟨"ehr1"⟩) (.error "down")
        ⟨"P1", none, ⟨0, none⟩, some 120, none, none⟩
      = postVitalSigns (fun _ => "") 0 ⟨0, none⟩ (some ⟨"ehr1"⟩) (.ok ⟨"uid1", ""⟩)
        ⟨"P1", none, ⟨0, none⟩, some 120, none, none⟩
    ∧ validate_vitals ⟨"P2", none, ⟨0, none⟩, some 120, some 80, none⟩
      = .ok ⟨"P2", none, ⟨0, none⟩, some 120, some 80, none⟩ :=
  c2_invariant_rejection (fun _ => "") 0 ⟨0, none⟩ (some ⟨"ehr1"⟩) (.error "down")
    (.ok ⟨"uid1", ""⟩) ⟨"P1", none, ⟨0, none⟩, some 120, none, none⟩
    ⟨"P2", none, ⟨0, none⟩, some 120, some 80, none⟩ (by decide) (by decide)

lemma vital_sign_queries_distinct : VITAL_SIGNS_QUERY ≠ VITAL_SIGNS_DATE_RANGE_QUERY := by
  decide

/-- C7: the date-bounded template with exactly the three named
parameters (ehr id, lower bound, upper bound) is chosen precisely when
both dates are supplied, otherwise the unbounded template with the ehr
id alone; the chosen query text is always one of the two fixed
templates, so no filter value is ever concatenated into it, and the
bounded template carries inclusive named placeholders for both bounds. -/
theorem c7_query_selection (iso : PyDateTime → String) (eid : String)
    (f t : Option PyDateTime) (a b : PyDateTime) :
    selectQuery iso eid (some a) (some b) =
      (VITAL_SIGNS_DATE_RANGE_QUERY,
       [("ehr_id", eid), ("from_date", iso a), ("to_date", iso b)])
    ∧ selectQuery iso eid none (some b) = (VITAL_SIGNS_QUERY, [("ehr_id", eid)])
    ∧ selectQuery iso eid (some a) none = (VITAL_SIGNS_QUERY, [("ehr_id", eid)])
    ∧ selectQuery iso eid none none = (VITAL_SIGNS_QUERY, [("ehr_id", eid)])
    ∧ ((selectQuery iso eid f t).1 = VITAL_SIGNS_DATE_RANGE_QUERY
        ∨ (selectQuery iso eid f t).1 = VITAL_SIGNS_QUERY)
    ∧ ((selectQuery iso eid f t).1 = VITAL_SIGNS_DATE_RANGE_QUERY
        ↔ f.isSome = true ∧ t.isSome = true)
    ∧ occursIn "$ehr_id" VITAL_SIGNS_QUERY
    ∧ occursIn "$ehr_id" VITAL_SIGNS_DATE_RANGE_QUERY
    ∧ occursIn ">= $from_date" VITAL_SIGNS_DATE_RANGE_QUERY
    ∧ occursIn "<= $to_date" VITAL_SIGNS_DATE_RANGE_QUERY := by
  refine ⟨rfl, rfl, rfl, rfl, ?_, ?_, by decide, by decide, by decide, by decide⟩
  · rcases f with _ | a2 <;> rcases t with _ | b2
    · exact Or.inr rfl
    · exact Or.inr rfl
    · exact Or.inr rfl
    · exact Or.inl rfl
  · rcases f with _ | a2 <;> rcases t with _ | b2 <;>
      simp [selectQuery, vital_sign_queries_distinct]

/-- C8: the transparency metadata always carries the composition
archetype id; the blood-pressure archetype id appears (exactly once)
together with exactly the systolic and diastolic path mappings iff both
blood-pressure fields are present; the pulse archetype id appears
exactly once together with exactly one path mapping iff the pulse rate
is present; and nothing else is emitted. -/
theorem c8_metadata_shape (uid : Value) (eid : String) (data : VitalSignsCreate) :
    (build_openehr_metadata uid eid data).archetype_ids =
      [compositionArchetypeId]
      ++ (if data.systolic.isSome && data.diastolic.isSome then [bloodPressureArchetypeId] else [])
      ++ (if data.pulse_rate.isSome then [pulseArchetypeId] else [])
    ∧ (build_openehr_metadata uid eid data).path_mappings =
      (match data.systolic, data.diastolic with
       | some s, some d =>
         [{ field := "systolic", archetype_id := bloodPressureArchetypeId,
            archetype_path := bloodPressureSystolicPath ++ "/magnitude",
            flat_path := "vital_signs/blood_pressure:0/any_event:0/systolic|magnitude",
            value := some s, unit := some "mm[Hg]" },
          { field := "diastolic", archetype_id := bloodPressureArchetypeId,
            archetype_path := bloodPressureDiastolicPath ++ "/magnitude",
            flat_path := "vital_signs/blood_pressure:0/any_event:0/diastolic|magnitude",
            value := some d, unit := some "mm[Hg]" }]
       | _, _ => [])
      ++ (match data.pulse_rate with
          | some p =>
            [{ field := "pulse_rate", archetype_id := pulseArchetypeId,
               archetype_path := pulseRatePath ++ "/magnitude",
               flat_path := "vital_signs/pulse_heart_beat:0/any_event:0/rate|magnitude",
               value := some p, unit := some "/min" }]
          | none => [])
    ∧ compositionArchetypeId ∈ (build_openehr_metadata uid eid data).archetype_ids
    ∧ ((build_openehr_metadata uid eid data).archetype_ids.count bloodPressureArchetypeId
        = if data.systolic.isSome && data.diastolic.isSome then 1 else 0)
    ∧ ((build_openehr_metadata uid eid data).archetype_ids.count pulseArchetypeId
        = if data.pulse_rate.isSome then 1 else 0)
    ∧ ((build_openehr_metadata uid eid data).path_mappings.map PathMappingResponse.field
        = (if data.systolic.isSome && data.diastolic.isSome then ["systolic", "diastolic"] else [])
          ++ (if data.pulse_rate.isSome then ["pulse_rate"] else [])) := by
  rcases data with ⟨pid, enc, t, sys, dia, pr⟩
  rcases sys with _ | s <;> rcases dia with _ | d <;> rcases pr with _ | p <;>
    exact ⟨rfl, rfl, List.mem_cons_self _ _, rfl, rfl, rfl⟩

/-- C10: the pydantic construction of a VitalSignsCreate succeeds
exactly when every supplied field lies in its range (systolic 50..300,
diastolic 30..200, pulse rate 20..300), the recording time normalized
to UTC is not after the current time, and the vitals invariant holds;
an accepted record is returned unchanged, otherwise the result is a
validation error, so out-of-range or future values never enter the
core. -/
theorem c10_field_bounds (nowWall : Int) (inp : VitalSignsCreate) :
    ((∃ d, mkVitalSignsCreate nowWall inp = .ok d) ↔
      (InRangeOpt 50 300 inp.systolic ∧ InRangeOpt 30 200 inp.diastolic ∧
       InRangeOpt 20 300 inp.pulse_rate ∧ normalizedInstant inp.recorded_at ≤ nowWall ∧
       satisfiesVitalsInvariant inp))
    ∧ (mkVitalSignsCreate nowWall inp = .ok inp
        ∨ ∃ e, mkVitalSignsCreate nowWall inp = .error e) := by
  constructor
  · constructor
    · rintro ⟨d, hd⟩
      have hshape := mkVitalSignsCreate_ok_shape nowWall inp d hd
      rw [hshape] at hd
      exact (mkVitalSignsCreate_ok_self_iff nowWall inp).mp hd
    · intro h
      exact ⟨inp, (mkVitalSignsCreate_ok_self_iff nowWall inp).mpr h⟩
  · cases hres : mkVitalSignsCreate nowWall inp with
    | ok d =>
      left
      exact congrArg Except.ok (mkVitalSignsCreate_ok_shape nowWall inp d hres)
    | error e => exact Or.inr ⟨e, rfl⟩

/-- C5: when the patient exists the record operation never propagates a
store failure: any store error still yields a successful response whose
identifier is the locally generated one tagged with the fixed
placeholder- prefix, while a successful write returns the identifier
the store assigned. -/
theorem c5_degraded_write (iso : PyDateTime → String) (nowUtc : PyDateTime)
    (p : Patient) (data : VitalSignsCreate) (e : String) (r : CreateResult) :
    (∃ resp, record_vital_signs iso nowUtc (some p) (.error e) data = .ok resp
      ∧ resp.id = .vstr ("placeholder-" ++ iso nowUtc)
      ∧ ∃ tail, resp.id = .vstr ("placeholder-" ++ tail))
    ∧ (∃ resp, record_vital_signs iso nowUtc (some p) (.ok r) data = .ok resp
      ∧ resp.id = .vstr (pyOrStr r.uidValue r.compositionUid))
    ∧ ∀ st : Except String CreateResult,
        ∃ resp, record_vital_signs iso nowUtc (some p) st data = .ok resp := by
  refine ⟨⟨_, rfl, rfl, ⟨iso nowUtc, rfl⟩⟩, ⟨_, rfl, rfl⟩, ?_⟩
  intro st
  cases st with
  | ok r2 => exact ⟨_, rfl⟩
  | error e2 => exact ⟨_, rfl⟩

lemma mapExcept_ok_length {α β : Type} (f : α → Except String β) (l : List α)
    (ys : List β) (h : mapExcept f l = .ok ys) : ys.length = l.length := by
  induction l generalizing ys with
  | nil =>
    simp only [mapExcept] at h
    injection h with h1
    subst h1
    rfl
  | cons a as ih =>
    simp only [mapExcept] at h
    cases hf : f a with
    | error e => rw [hf] at h; exact Except.noConfusion h
    | ok b =>
      rw [hf] at h
      cases hrest : mapExcept f as with
      | error e => rw [hrest] at h; exact Except.noConfusion h
      | ok bs =>
        rw [hrest] at h
        injection h with h1
        subst h1
        simp [ih bs hrest]

/-- The five logical column names of the vital-signs query result. -/
def stdCols : List (Option String) :=
  [some "composition_id", some "recorded_at", some "systolic",
   some "diastolic", some "pulse_rate"]

/-- C3 counterexample: a 1-row QueryResult whose vital columns are all
null, with skip 0 and limit 100.  The claim demands a response of
min(100, 1) = 1 record with total 1, but the reconstruction loop raises
the record-validation error instead, so no response is returned. -/
theorem c3_counterexample :
    get_vital_signs_for_patient (fun _ => "") (fun _ => none) 0 ⟨0, none⟩
      (some ⟨"ehr1"⟩)
      (fun _ _ => .ok ⟨stdCols,
        [[.vstr "c1", .vstr "2024-01-01T10:00:00Z", .vnull, .vnull, .vnull]]⟩)
      "P1" none none 0 100
    = .error "At least one vital sign must be provided" := rfl

/-- C3 as amended: whenever the request does return a response (no row
aborted the loop), the page holds min(limit, max(0, rows - skip))
records and the reported total is the full unsliced row count. -/
theorem c3_pagination (iso : PyDateTime → String)
    (parseIso : String → Option PyDateTime) (nowWall : Int) (nowUtc : PyDateTime)
    (p : Patient)
    (executeAql : String → List (String × String) → Except String QueryResult)
    (patient_id : String) (from_date to_date : Option PyDateTime)
    (skip limit : Nat) (result : QueryResult) (resp : VitalSignsListResponse)
    (hq : executeAql (selectQuery iso p.ehrId from_date to_date).1
        (selectQuery iso p.ehrId from_date to_date).2 = .ok result)
    (h : get_vital_signs_for_patient iso parseIso nowWall nowUtc (some p) executeAql
        patient_id from_date to_date skip limit = .ok resp) :
    resp.total = result.rows.length
    ∧ resp.items.length = min limit (result.rows.length - skip) := by
  simp only [get_vital_signs_for_patient] at h
  rw [hq] at h
  dsimp only [] at h
  cases hm : mapExcept
      (reconstructRow parseIso nowWall nowUtc patient_id p.ehrId (colNamesOf result.columns))
      ((result.rows.drop skip).take limit) with
  | error e => rw [hm] at h; exact Except.noConfusion h
  | ok items =>
    rw [hm] at h
    injection h with h1
    rw [← h1]
    refine ⟨rfl, ?_⟩
    have hlen := mapExcept_ok_length _ _ _ hm
    simp only [hlen, List.length_take, List.length_drop]

/-- Witness for C3 as amended: a store returning no rows yields the
empty page with total 0 = min(100, 0 - 0). -/
theorem c3_pagination_witness :
    ({ items := [], total := 0 } : VitalSignsListResponse).total =
      ({ columns := stdCols, rows := [] } : QueryResult).rows.length
    ∧ ({ items := [], total := 0 } : VitalSignsListResponse).items.length =
      min 100 (({ columns := stdCols, rows := [] } : QueryResult).rows.length - 0) :=
  c3_pagination (fun _ => "") (fun _ => none) 0 ⟨0, none⟩ ⟨"ehr1"⟩
    (fun _ _ => .ok { columns := stdCols, rows := [] }) "P1" none none 0 100
    { columns := stdCols, rows := [] } { items := [], total := 0 } rfl rfl

lemma numField_vint_ne (n : Int) (hn : n ≠ 0) : numField (some (.vint n)) = .ok (some n) := by
  simp [numField, Value.truthy, pyInt, hn, Except.map]

lemma numField_vstr_ne (s : String) (hs : s ≠ "") :
    numField (some (.vstr s)) = (pyIntOfString s).map some := by
  simp [numField, Value.truthy, hs, pyInt]

lemma zip_take_self {α β : Type} (l1 : List α) (l2 : List β) :
    l1.zip l2 = l1.zip (l2.take l1.length) := by
  induction l1 generalizing l2 with
  | nil => simp
  | cons a as ih =>
    cases l2 with
    | nil => simp
    | cons b bs => simp [ih bs]

lemma lookup_eq_none_of_keys (d : List (String × Value)) (k : String)
    (h : ∀ p ∈ d, p.1 ≠ k) : d.lookup k = none := by
  induction d with
  | nil => rfl
  | cons p rest ih =>
    obtain ⟨pk, pv⟩ := p
    have hp : pk ≠ k := h (pk, pv) (by simp)
    have hk : (k == pk) = false := by
      exact beq_eq_false_iff_ne.mpr (fun hh => hp hh.symm)
    simp only [List.lookup, hk]
    exact ih (fun q hq => h q (by simp [hq]))

lemma dictGet_zip_none (names : List String) (row : List Value) (k : String)
    (h : k ∉ names) : dictGet (rowDict names row) k = none := by
  unfold dictGet rowDict
  apply lookup_eq_none_of_keys
  intro p hp
  have hmem := List.of_mem_zip (List.mem_reverse.mp hp)
  intro hk
  exact h (hk ▸ hmem.1)

lemma reconstructRow_ok_fields
    (parseIso : String → Option PyDateTime) (nowWall : Int) (nowUtc : PyDateTime)
    (pid eid : String) (names : List String) (row : List Value)
    (resp : VitalSignsResponse)
    (h : reconstructRow parseIso nowWall nowUtc pid eid names row = .ok resp) :
    ∃ sv dv pv,
      numField (dictGet (rowDict names row) "systolic") = .ok sv
      ∧ numField (dictGet (rowDict names row) "diastolic") = .ok dv
      ∧ numField (dictGet (rowDict names row) "pulse_rate") = .ok pv
      ∧ resp.systolic = sv ∧ resp.diastolic = dv ∧ resp.pulse_rate = pv
      ∧ resp.recorded_at = parseRecordedAt parseIso nowUtc
          (dictGetD (rowDict names row) "recorded_at" (.vstr ""))
      ∧ resp.id = dictGetD (rowDict names row) "composition_id" (.vstr "") := by
  simp only [reconstructRow] at h
  cases h1 : numField (dictGet (rowDict names row) "systolic") with
  | error e => rw [h1] at h; exact Except.noConfusion h
  | ok sv =>
    rw [h1] at h
    dsimp only [] at h
    cases h2 : numField (dictGet (rowDict names row) "diastolic") with
    | error e => rw [h2] at h; exact Except.noConfusion h
    | ok dv =>
      rw [h2] at h
      dsimp only [] at h
      cases h3 : numField (dictGet (rowDict names row) "pulse_rate") with
      | error e => rw [h3] at h; exact Except.noConfusion h
      | ok pv =>
        rw [h3] at h
        dsimp only [] at h
        cases h4 : mkVitalSignsCreate nowWall
            { patient_id := pid, encounter_id := none,
              recorded_at := parseRecordedAt parseIso nowUtc
                (dictGetD (rowDict names row) "recorded_at" (.vstr "")),
              systolic := sv, diastolic := dv, pulse_rate := pv } with
        | error e => rw [h4] at h; exact Except.noConfusion h
        | ok datarec =>
          rw [h4] at h
          dsimp only [] at h
          injection h with h5
          subst h5
          exact ⟨sv, dv, pv, rfl, rfl, rfl, rfl, rfl, rfl, rfl, rfl⟩

lemma reconstructRow_build
    (parseIso : String → Option PyDateTime) (nowWall : Int) (nowUtc : PyDateTime)
    (pid eid : String) (names : List String) (row : List Value)
    (sv dv pv : Option Int) (datarec : VitalSignsCreate)
    (hs : numField (dictGet (rowDict names row) "systolic") = .ok sv)
    (hd : numField (dictGet (rowDict names row) "diastolic") = .ok dv)
    (hpu : numField (dictGet (rowDict names row) "pulse_rate") = .ok pv)
    (hmk : mkVitalSignsCreate nowWall
        { patient_id := pid, encounter_id := none,
          recorded_at := parseRecordedAt parseIso nowUtc
            (dictGetD (rowDict names row) "recorded_at" (.vstr "")),
          systolic := sv, diastolic := dv, pulse_rate := pv } = .ok datarec) :
    reconstructRow parseIso nowWall nowUtc pid eid names row =
      .ok { id := dictGetD (rowDict names row) "composition_id" (.vstr ""),
            patient_id := pid, encounter_id := none,
            recorded_at := parseRecordedAt parseIso nowUtc
              (dictGetD (rowDict names row) "recorded_at" (.vstr "")),
            systolic := sv, diastolic := dv, pulse_rate := pv,
            created_at := parseRecordedAt parseIso nowUtc
              (dictGetD (rowDict names row) "recorded_at" (.vstr "")),
            openehr_metadata := build_openehr_metadata
              (dictGetD (rowDict names row) "composition_id" (.vstr "")) eid datarec } := by
  simp only [reconstructRow]
  rw [hs]
  dsimp only []
  rw [hd]
  dsimp only []
  rw [hpu]
  dsimp only []
  rw [hmk]

/-- C4 counterexample: a row whose systolic value is the truthy string
x reaches int() and raises a conversion error, so not every truthy
value is converted to an integer. -/
theorem c4_counterexample :
    reconstructRow (fun _ => none) 0 ⟨0, none⟩ "P1" "ehr1" (colNamesOf stdCols)
      [.vstr "c1", .vstr "2024-01-01T10:00:00Z", .vstr "x", .vnull, .vint 70]
    = .error "invalid literal for int: x" := rfl

/-- C4 as amended: a falsy row value (absent, None, zero or the empty
string) always reconstructs as an absent field — in particular a zero
systolic row value yields an absent systolic, never a zero reading —
and a truthy value goes through int(), which keeps a non-zero integer
verbatim and parses a non-empty string, raising a conversion error on
strings that are not integer literals. -/
theorem c4_numeric_policy (n : Int) (s : String) (v : Value)
    (parseIso : String → Option PyDateTime) (nowWall : Int) (nowUtc : PyDateTime)
    (pid eid : String) (names : List String) (row : List Value)
    (resp : VitalSignsResponse)
    (hn : n ≠ 0) (hs : s ≠ "")
    (hrec : reconstructRow parseIso nowWall nowUtc pid eid names row = .ok resp)
    (hzero : dictGet (rowDict names row) "systolic" = some (.vint 0)) :
    numField none = .ok none
    ∧ numField (some .vnull) = .ok none
    ∧ numField (some (.vint 0)) = .ok none
    ∧ numField (some (.vstr "")) = .ok none
    ∧ (v.truthy = false → numField (some v) = .ok none)
    ∧ numField (some (.vint n)) = .ok (some n)
    ∧ numField (some (.vstr s)) = (pyIntOfString s).map some
    ∧ resp.systolic = none := by
  obtain ⟨sv, dv, pv, h1, h2, h3, hsy, -, -, -, -⟩ :=
    reconstructRow_ok_fields parseIso nowWall nowUtc pid eid names row resp hrec
  refine ⟨rfl, rfl, rfl, rfl, ?_, numField_vint_ne n hn, numField_vstr_ne s hs, ?_⟩
  · intro hf
    simp [numField, hf]
  · rw [hzero] at h1
    have h6 : (Except.ok (none : Option Int) : Except String (Option Int)) = .ok sv := h1
    injection h6 with h7
    rw [hsy, ← h7]

/-- The reconstructed response of the C4 witness row. -/
def c4wResp : VitalSignsResponse :=
  { id := .vstr "c1", patient_id := "P1", encounter_id := none,
    recorded_at := ⟨0, none⟩, systolic := none, diastolic := none,
    pulse_rate := some 70, created_at := ⟨0, none⟩,
    openehr_metadata :=
      { composition_uid := .vstr "c1", template_id := TEMPLATE_ID,
        archetype_ids := [compositionArchetypeId, pulseArchetypeId],
        ehr_id := "ehr1",
        path_mappings :=
          [{ field := "pulse_rate", archetype_id := pulseArchetypeId,
             archetype_path := pulseRatePath ++ "/magnitude",
             flat_path := "vital_signs/pulse_heart_beat:0/any_event:0/rate|magnitude",
             value := some 70, unit := some "/min" }] } }

/-- Witness for C4 as amended: a concrete row with systolic 0,
diastolic 0 and pulse 70 reconstructs with both blood-pressure fields
absent. -/
theorem c4_numeric_policy_witness :
    numField none = .ok none
    ∧ numField (some .vnull) = .ok none
    ∧ numField (some (.vint 0)) = .ok none
    ∧ numField (some (.vstr "")) = .ok none
    ∧ ((Value.vnull).truthy = false → numField (some .vnull) = .ok none)
    ∧ numField (some (.vint 5)) = .ok (some 5)
    ∧ numField (some (.vstr "7")) = (pyIntOfString "7").map some
    ∧ c4wResp.systolic = none :=
  c4_numeric_policy 5 "7" .vnull (fun _ => none) 0 ⟨0, none⟩ "P1" "ehr1"
    (colNamesOf stdCols) [.vstr "c1", .vstr "T", .vint 0, .vint 0, .vint 70] c4wResp
    (by decide) (by decide) rfl rfl

/-- C9 counterexample: a row carrying only its composition id (every
other column missing) makes the inner record validation raise and
aborts the whole request, so a missing column can in fact fail the
batch. -/
theorem c9_counterexample :
    get_vital_signs_for_patient (fun _ => "") (fun _ => none) 0 ⟨0, none⟩
      (some ⟨"ehr1"⟩) (fun _ _ => .ok ⟨stdCols, [[.vstr "c1"]]⟩)
      "P1" none none 0 100
    = .error "At least one vital sign must be provided" := rfl

/-- C9 as amended: row values are zipped with the column names using
the shorter length; a column absent from the result leaves the field
absent; an unparseable recorded_at string falls back to the current
time; but totality holds only for rows whose extracted vitals pass the
record validation — an all-absent row aborts the batch. -/
theorem c9_reconstruction_recovery
    (parseIso : String → Option PyDateTime) (nowWall : Int) (nowUtc : PyDateTime)
    (pid eid : String) (names : List String) (row : List Value)
    (s : String) (resp : VitalSignsResponse)
    (hmiss : "systolic" ∉ names)
    (hts : dictGetD (rowDict names row) "recorded_at" (.vstr "") = .vstr s)
    (hpfail : parseIso (pyReplace s "Z" "+00:00") = none)
    (hok : reconstructRow parseIso nowWall nowUtc pid eid names row = .ok resp) :
    reconstructRow parseIso nowWall nowUtc pid eid names row
      = reconstructRow parseIso nowWall nowUtc pid eid names (row.take names.length)
    ∧ resp.systolic = none
    ∧ resp.recorded_at = nowUtc := by
  obtain ⟨sv, dv, pv, h1, h2, h3, hsy, -, -, hrcd, -⟩ :=
    reconstructRow_ok_fields parseIso nowWall nowUtc pid eid names row resp hok
  refine ⟨?_, ?_, ?_⟩
  · simp only [reconstructRow, rowDict]
    rw [← zip_take_self]
  · rw [dictGet_zip_none names row _ hmiss] at h1
    have h6 : (Except.ok (none : Option Int) : Except String (Option Int)) = .ok sv := h1
    injection h6 with h7
    rw [hsy, ← h7]
  · rw [hrcd, hts]
    simp [parseRecordedAt, hpfail]

/-- The reconstructed response of the C9 witness row. -/
def c9wResp : VitalSignsResponse :=
  { id := .vstr "c2", patient_id := "P2", encounter_id := none,
    recorded_at := ⟨0, none⟩, systolic := none, diastolic := none,
    pulse_rate := some 72, created_at := ⟨0, none⟩,
    openehr_metadata :=
      { composition_uid := .vstr "c2", template_id := TEMPLATE_ID,
        archetype_ids := [compositionArchetypeId, pulseArchetypeId],
        ehr_id := "ehr2",
        path_mappings :=
          [{ field := "pulse_rate", archetype_id := pulseArchetypeId,
             archetype_path := pulseRatePath ++ "/magnitude",
             flat_path := "vital_signs/pulse_heart_beat:0/any_event:0/rate|magnitude",
             value := some 72, unit := some "/min" }] } }

/-- Witness for C9 as amended: a three-column result without a systolic
column and with an unparseable recorded_at string reconstructs with an
absent systolic and the fallback current time, and truncating the row
to the column count changes nothing. -/
theorem c9_reconstruction_recovery_witness :
    reconstructRow (fun _ => none) 0 ⟨0, none⟩ "P2" "ehr2"
        ["composition_id", "recorded_at", "pulse_rate"]
        [.vstr "c2", .vstr "garbage", .vint 72]
      = reconstructRow (fun _ => none) 0 ⟨0, none⟩ "P2" "ehr2"
        ["composition_id", "recorded_at", "pulse_rate"]
        (([.vstr "c2", .vstr "garbage", .vint 72] : List Value).take
          (["composition_id", "recorded_at", "pulse_rate"] : List String).length)
    ∧ c9wResp.systolic = none
    ∧ c9wResp.recorded_at = ⟨0, none⟩ :=
  c9_reconstruction_recovery (fun _ => none) 0 ⟨0, none⟩ "P2" "ehr2"
    ["composition_id", "recorded_at", "pulse_rate"]
    [.vstr "c2", .vstr "garbage", .vint 72] "garbage" c9wResp
    (by decide) rfl rfl rfl

/-- C6: serializing a valid record through the Composition Builder
field set into a one-row QueryResult and reconstructing it yields a
record equal to the original on systolic, diastolic, pulse rate and the
recorded timestamp; the hypothesis on parseIso instantiates the
documented datetime.fromisoformat round-trip at the record timestamp. -/
theorem c6_roundtrip (iso : PyDateTime → String) (parseIso : String → Option PyDateTime)
    (nowWall : Int) (nowUtc : PyDateTime) (pid eid cid : String)
    (data : VitalSignsCreate)
    (hv : ValidRecord nowWall data)
    (hp : parseIso (pyReplace (iso data.recorded_at) "Z" "+00:00") = some data.recorded_at) :
    ∃ resp, reconstructRow parseIso nowWall nowUtc pid eid
        (colNamesOf (serializeRecord iso cid data).columns)
        ((serializeRecord iso cid data).rows.headD [])
      = .ok resp
      ∧ resp.systolic = data.systolic ∧ resp.diastolic = data.diastolic
      ∧ resp.pulse_rate = data.pulse_rate ∧ resp.recorded_at = data.recorded_at := by
  obtain ⟨hA, hB, hC, hD, hE1, hE2⟩ := hv
  rcases data with ⟨dpid, denc, t, sys, dia, pr⟩
  rcases sys with _ | s <;> rcases dia with _ | d <;> rcases pr with _ | p
  · simp at hE2
  · -- pulse only
    have hp0 : p ≠ 0 := by
      simp only [InRangeOpt] at hC
      omega
    have hflat := buildFlatComposition_eq iso ⟨dpid, denc, t, none, none, some p⟩
    have hrow : (serializeRecord iso cid ⟨dpid, denc, t, none, none, some p⟩).rows.headD []
        = [.vstr cid, .vstr (iso t), .vnull, .vnull, .vint p] := by
      simp only [serializeRecord]
      rw [hflat]
      rfl
    have hcols : colNamesOf (serializeRecord iso cid ⟨dpid, denc, t, none, none, some p⟩).columns
        = ["composition_id", "recorded_at", "systolic", "diastolic", "pulse_rate"] := rfl
    rw [hcols, hrow]
    have hts : parseRecordedAt parseIso nowUtc
        (dictGetD (rowDict ["composition_id", "recorded_at", "systolic", "diastolic", "pulse_rate"]
          [.vstr cid, .vstr (iso t), .vnull, .vnull, .vint p]) "recorded_at" (.vstr ""))
        = t := by
      show (parseIso (pyReplace (iso t) "Z" "+00:00")).getD nowUtc = t
      rw [hp]
      rfl
    have hmk : mkVitalSignsCreate nowWall
        { patient_id := pid, encounter_id := none,
          recorded_at := parseRecordedAt parseIso nowUtc
            (dictGetD (rowDict ["composition_id", "recorded_at", "systolic", "diastolic", "pulse_rate"]
              [.vstr cid, .vstr (iso t), .vnull, .vnull, .vint p]) "recorded_at" (.vstr "")),
          systolic := none, diastolic := none, pulse_rate := some p }
        = .ok { patient_id := pid, encounter_id := none,
                recorded_at := parseRecordedAt parseIso nowUtc
                  (dictGetD (rowDict ["composition_id", "recorded_at", "systolic", "diastolic", "pulse_rate"]
                    [.vstr cid, .vstr (iso t), .vnull, .vnull, .vint p]) "recorded_at" (.vstr "")),
                systolic := none, diastolic := none, pulse_rate := some p } := by
      rw [hts]
      exact (mkVitalSignsCreate_ok_self_iff nowWall _).mpr
        ⟨hA, hB, hC, hD, by simp [satisfiesVitalsInvariant]⟩
    exact ⟨_, reconstructRow_build parseIso nowWall nowUtc pid eid
        ["composition_id", "recorded_at", "systolic", "diastolic", "pulse_rate"]
        [.vstr cid, .vstr (iso t), .vnull, .vnull, .vint p]
        none none (some p) _ rfl rfl (numField_vint_ne p hp0) hmk,
      rfl, rfl, rfl, hts⟩
  · simp at hE1
  · simp at hE1
  · simp at hE1
  · simp at hE1
  · -- blood pressure only
    have hs0 : s ≠ 0 := by
      simp only [InRangeOpt] at hA
      omega
    have hd0 : d ≠ 0 := by
      simp only [InRangeOpt] at hB
      omega
    have hflat := buildFlatComposition_eq iso ⟨dpid, denc, t, some s, some d, none⟩
    have hrow : (serializeRecord iso cid ⟨dpid, denc, t, some s, some d, none⟩).rows.headD []
        = [.vstr cid, .vstr (iso t), .vint s, .vint d, .vnull] := by
      simp only [serializeRecord]
      rw [hflat]
      rfl
    have hcols : colNamesOf (serializeRecord iso cid ⟨dpid, denc, t, some s, some d, none⟩).columns
        = ["composition_id", "recorded_at", "systolic", "diastolic", "pulse_rate"] := rfl
    rw [hcols, hrow]
    have hts : parseRecordedAt parseIso nowUtc
        (dictGetD (rowDict ["composition_id", "recorded_at", "systolic", "diastolic", "pulse_rate"]
          [.vstr cid, .vstr (iso t), .vint s, .vint d, .vnull]) "recorded_at" (.vstr ""))
        = t := by
      show (parseIso (pyReplace (iso t) "Z" "+00:00")).getD nowUtc = t
      rw [hp]
      rfl
    have hmk : mkVitalSignsCreate nowWall
        { patient_id := pid, encounter_id := none,
          recorded_at := parseRecordedAt parseIso nowUtc
            (dictGetD (rowDict ["composition_id", "recorded_at", "systolic", "diastolic", "pulse_rate"]
              [.vstr cid, .vstr (iso t), .vint s, .vint d, .vnull]) "recorded_at" (.vstr "")),
          systolic := some s, diastolic := some d, pulse_rate := none }
        = .ok { patient_id := pid, encounter_id := none,
                recorded_at := parseRecordedAt parseIso nowUtc
                  (dictGetD (rowDict ["composition_id", "recorded_at", "systolic", "diastolic", "pulse_rate"]
                    [.vstr cid, .vstr (iso t), .vint s, .vint d, .vnull]) "recorded_at" (.vstr "")),
                systolic := some s, diastolic := some d, pulse_rate := none } := by
      rw [hts]
      exact (mkVitalSignsCreate_ok_self_iff nowWall _).mpr
        ⟨hA, hB, hC, hD, by simp [satisfiesVitalsInvariant]⟩
    exact ⟨_, reconstructRow_build parseIso nowWall nowUtc pid eid
        ["composition_id", "recorded_at", "systolic", "diastolic", "pulse_rate"]
        [.vstr cid, .vstr (iso t), .vint s, .vint d, .vnull]
        (some s) (some d) none _ (numField_vint_ne s hs0) (numField_vint_ne d hd0) rfl hmk,
      rfl, rfl, rfl, hts⟩
  · -- blood pressure and pulse
    have hs0 : s ≠ 0 := by
      simp only [InRangeOpt] at hA
      omega
    have hd0 : d ≠ 0 := by
      simp only [InRangeOpt] at hB
      omega
    have hp0 : p ≠ 0 := by
      simp only [InRangeOpt] at hC
      omega
    have hflat := buildFlatComposition_eq iso ⟨dpid, denc, t, some s, some d, some p⟩
    have hrow : (serializeRecord iso cid ⟨dpid, denc, t, some s, some d, some p⟩).rows.headD []
        = [.vstr cid, .vstr (iso t), .vint s, .vint d, .vint p] := by
      simp only [serializeRecord]
      rw [hflat]
      rfl
    have hcols : colNamesOf (serializeRecord iso cid ⟨dpid, denc, t, some s, some d, some p⟩).columns
        = ["composition_id", "recorded_at", "systolic", "diastolic", "pulse_rate"] := rfl
    rw [hcols, hrow]
    have hts : parseRecordedAt parseIso nowUtc
        (dictGetD (rowDict ["composition_id", "recorded_at", "systolic", "diastolic", "pulse_rate"]
          [.vstr cid, .vstr (iso t), .vint s, .vint d, .vint p]) "recorded_at" (.vstr ""))
        = t := by
      show (parseIso (pyReplace (iso t) "Z" "+00:00")).getD nowUtc = t
      rw [hp]
      rfl
    have hmk : mkVitalSignsCreate nowWall
        { patient_id := pid, encounter_id := none,
          recorded_at := parseRecordedAt parseIso nowUtc
            (dictGetD (rowDict ["composition_id", "recorded_at", "systolic", "diastolic", "pulse_rate"]
              [.vstr cid, .vstr (iso t), .vint s, .vint d, .vint p]) "recorded_at" (.vstr "")),
          systolic := some s, diastolic := some d, pulse_rate := some p }
        = .ok { patient_id := pid, encounter_id := none,
                recorded_at := parseRecordedAt parseIso nowUtc
                  (dictGetD (rowDict ["composition_id", "recorded_at", "systolic", "diastolic", "pulse_rate"]
                    [.vstr cid, .vstr (iso t), .vint s, .vint d, .vint p]) "recorded_at" (.vstr "")),
                systolic := some s, diastolic := some d, pulse_rate := some p } := by
      rw [hts]
      exact (mkVitalSignsCreate_ok_self_iff nowWall _).mpr
        ⟨hA, hB, hC, hD, by simp [satisfiesVitalsInvariant]⟩
    exact ⟨_, reconstructRow_build parseIso nowWall nowUtc pid eid
        ["composition_id", "recorded_at", "systolic", "diastolic", "pulse_rate"]
        [.vstr cid, .vstr (iso t), .vint s, .vint d, .vint p]
        (some s) (some d) (some p) _ (numField_vint_ne s hs0) (numField_vint_ne d hd0)
        (numField_vint_ne p hp0) hmk,
      rfl, rfl, rfl, hts⟩

/-- The timestamp of the C6 witness record. -/
def c6wT : PyDateTime := ⟨5, some 0⟩

/-- The isoformat rendering used by the C6 witness. -/
def c6wIso : PyDateTime → String := fun _ => "T0"

/-- The fromisoformat parser used by the C6 witness: it inverts c6wIso
at the witness timestamp. -/
def c6wParse : String → Option PyDateTime := fun s => if s = "T0" then some c6wT else none

/-- The C6 witness record: both blood-pressure fields and a pulse. -/
def c6wData : VitalSignsCreate := ⟨"P1", none, c6wT, some 120, some 80, some 72⟩

/-- Witness for C6: the concrete round trip through the builder field
set restores systolic 120, diastolic 80, pulse 72 and the original
timestamp. -/
theorem c6_roundtrip_witness :
    ∃ resp, reconstructRow c6wParse 5 ⟨0, none⟩ "P" "E"
        (colNamesOf (serializeRecord c6wIso "c9" c6wData).columns)
        ((serializeRecord c6wIso "c9" c6wData).rows.headD [])
      = .ok resp
      ∧ resp.systolic = c6wData.systolic ∧ resp.diastolic = c6wData.diastolic
      ∧ resp.pulse_rate = c6wData.pulse_rate ∧ resp.recorded_at = c6wData.recorded_at :=
  c6_roundtrip c6wIso c6wParse 5 ⟨0, none⟩ "P" "E" "c9" c6wData (by decide) rfl

end OpenCIS
